import Mathlib

/-!
Shallow embedding of the rule-based classification and decision engine of the
Datachatbot repository (`src/chatbot/intent_classifier.py`,
`src/chatbot/visualizer.py`, `src/chatbot/query_generator.py`).

Modelling conventions:
* Python strings are Lean `String`s; Python `sub in s` is `strContains s sub`
  (substring containment over the character list).
* Python dicts that are built once from a literal table and then only iterated
  or looked up are ordered association lists `List (String × _)`.
* Scores are rationals `ℚ`.  The sentence-transformer embedding model is an
  external black box; the composite `cosine(embed a, embed b)` is therefore a
  parameter `sem : String → String → ℚ` of the functions that use it.  All
  claims proved below hold for every such parameter.
* `max(d, key=d.get)` (first key attaining the maximal value) is `pyArgmax`;
  `max(d.values())` is `pyMaxVal`; `d.get(k, 0)` is `pyGetD`.
-/

namespace Datachatbot

/-- Python list-of-chars prefix test (`t` starts with `p`). -/
def listStartsWith : List Char → List Char → Bool
  | _, [] => true
  | [], _ :: _ => false
  | a :: as, b :: bs => a == b && listStartsWith as bs

/-- Python substring containment over character lists: `p` occurs contiguously in `t`. -/
def listContainsSub : List Char → List Char → Bool
  | [], p => p.isEmpty
  | a :: rest, p => listStartsWith (a :: rest) p || listContainsSub rest p

/-- Python `sub in s` for strings. -/
def strContains (s sub : String) : Bool :=
  listContainsSub s.data sub.data

/-- Python `str.lower()` (ASCII, which covers every string in the tables). -/
def pyLower (s : String) : String :=
  String.mk (s.data.map Char.toLower)

/-- Python `str.upper()`. -/
def pyUpper (s : String) : String :=
  String.mk (s.data.map Char.toUpper)

/-- Python `max(values)` for a list of rationals, with the source's
`if combined_scores else 0` guard folded in (`0` on the empty list). -/
def pyMaxVal : List ℚ → ℚ
  | [] => 0
  | x :: xs => xs.foldl max x

/-- One step of Python `max(d, key=d.get)`: keep the incumbent unless the
candidate is strictly larger (so the first maximal entry wins). -/
def pyPick (best y : String × ℚ) : String × ℚ :=
  if best.2 < y.2 then y else best

/-- Python `best = max(d, key=d.get)` together with the following `d[best]`
lookup: the first entry of the association list attaining the maximal value.
The empty case is unreachable in the program (the tables are non-empty). -/
def pyArgmax : List (String × ℚ) → String × ℚ
  | [] => (String.mk [], 0)
  | x :: xs => xs.foldl pyPick x

/-- Python `d.get(k, 0)` on an association list. -/
def pyGetD (m : List (String × ℚ)) (k : String) : ℚ :=
  match m.find? (fun p => p.1 == k) with
  | some p => p.2
  | none => 0

/-! ### IntentClassifier tables (`intent_classifier.py`, `__init__`) -/

/-- Intent definitions: category name and its representative phrases. -/
def intents : List (String × List String) :=
  [ ("generate_report", ["generate report", "create report", "show report", "make report"]),
    ("query_data", ["show me", "get data", "what is", "display", "fetch", "retrieve"]),
    ("analyze_metrics", ["total", "sum", "average", "count", "calculate", "compute"]),
    ("compare", ["compare", "versus", "vs", "difference", "between"]),
    ("trend", ["trend", "over time", "growth", "change", "timeline"]),
    ("filter", ["filter", "where", "only", "specific", "particular"]),
    ("top_bottom", ["top", "bottom", "best", "worst", "highest", "lowest"]) ]

/-- Domain signatures: domain name, keyword list, and description sentence. -/
def domain_signatures : List (String × List String × String) :=
  [ ("healthcare",
     (["patient", "diagnosis", "treatment", "medication", "prescription",
       "doctor", "physician", "medical", "clinic", "symptom", "disease",
       "icd", "cpt", "vital_signs", "blood_pressure", "heart_rate"],
      "medical healthcare patient diagnosis treatment doctor hospital pharmacy medicine clinical")),
    ("finance",
     (["transaction", "account", "balance", "revenue", "profit", "loss",
       "invoice", "payment", "credit", "debit", "ledger", "expense",
       "income", "budget", "investment", "loan", "interest"],
      "financial money transaction account balance payment invoice revenue profit banking investment")),
    ("hospital",
     (["admission", "discharge", "ward", "bed", "nurse", "emergency",
       "surgery", "radiology", "lab_test", "icu", "operation",
       "inpatient", "outpatient", "appointment", "room"],
      "hospital admission patient ward bed nurse emergency surgery medical records department")),
    ("retail",
     (["product", "sales", "customer", "order", "inventory", "purchase",
       "sku", "price", "quantity", "store", "cart", "checkout",
       "shipping", "delivery", "supplier", "stock"],
      "retail sales product customer order inventory purchase shopping ecommerce store")),
    ("education",
     (["student", "teacher", "course", "grade", "exam", "assignment",
       "enrollment", "class", "subject", "semester", "department",
       "faculty", "attendance", "marks", "gpa"],
      "education student teacher course grade exam school university college learning")),
    ("hr",
     (["employee", "salary", "department", "payroll", "leave", "attendance",
       "recruitment", "performance", "appraisal", "manager", "hire",
       "resignation", "promotion", "bonus", "benefits"],
      "human resources employee salary department payroll recruitment performance management")),
    ("logistics",
     (["shipment", "delivery", "warehouse", "transport", "tracking",
       "carrier", "freight", "route", "vehicle", "driver", "cargo",
       "dispatch", "loading", "unloading", "inventory"],
      "logistics shipping delivery warehouse transport tracking freight supply chain")),
    ("ecommerce",
     (["cart", "checkout", "payment", "order", "customer", "product",
       "review", "rating", "wishlist", "discount", "coupon", "refund",
       "shipping", "returns", "browse"],
      "ecommerce online shopping cart checkout payment order customer product website")) ]

/-- Fixed list of the eight configured domain names, in table order. -/
def domainNames : List String :=
  domain_signatures.map (fun d => d.1)

/-- Fixed list of the seven intent category names, in table order. -/
def intentNames : List String :=
  intents.map (fun it => it.1)

/-! ### IntentClassifier.classify -/

/-- Method `classify`: lowercase the prompt, score every intent by the cosine
similarity between the prompt embedding and the embedding of the joined
representative phrases (the composite is the abstract parameter `sim`), and
return `(intent, confidence, all_scores)` where `intent` is Python
`max(scores, key=scores.get)` and `confidence` is `scores[best_intent]`. -/
def classify (sim : String → String → ℚ) (prompt : String) :
    String × ℚ × List (String × ℚ) :=
  let prompt_lower := pyLower prompt
  let scores := intents.map (fun it =>
    (it.1, sim prompt_lower (String.intercalate (" ") it.2)))
  let best := pyArgmax scores
  (best.1, best.2, scores)

/-! ### IntentClassifier.detect_domain and its helpers -/

/-- Method `_schema_to_text`: concatenate every table name followed by its
column names, space separated, and lowercase the result. -/
def _schema_to_text (schema : List (String × List String)) : String :=
  pyLower (String.intercalate (" ") (schema.flatMap (fun tc => tc.1 :: tc.2)))

/-- Method `_keyword_based_detection`: per domain, the fraction of its
keywords occurring as substrings of the schema text (0 when the keyword list
is empty). -/
def _keyword_based_detection (schema_text : String) : List (String × ℚ) :=
  domain_signatures.map (fun d =>
    (d.1,
      if d.2.1.length > 0 then
        ((d.2.1.countP (fun kw => strContains schema_text kw) : ℚ)) / (d.2.1.length : ℚ)
      else 0))

/-- Method `_semantic_based_detection`: per domain, the cosine similarity of
the schema-text embedding and the domain-description embedding; the composite
`cosine(embed -, embed -)` is the abstract parameter `sem`. -/
def _semantic_based_detection (sem : String → String → ℚ) (schema_text : String) :
    List (String × ℚ) :=
  domain_signatures.map (fun d => (d.1, sem schema_text d.2.2))

/-- Method `detect_domain`: combine the two score maps with weights 0.7/0.3,
return `('general', max, combined)` when the maximal combined score is below
0.3, and otherwise the first maximal domain with its score. -/
def detect_domain (sem : String → String → ℚ) (schema : List (String × List String)) :
    String × ℚ × List (String × ℚ) :=
  let schema_text := _schema_to_text schema
  let keyword_scores := _keyword_based_detection schema_text
  let semantic_scores := _semantic_based_detection sem schema_text
  let combined_scores := domain_signatures.map (fun d =>
    (d.1, 0.7 * pyGetD semantic_scores d.1 + 0.3 * pyGetD keyword_scores d.1))
  let max_score := if combined_scores.isEmpty then 0
    else pyMaxVal (combined_scores.map (fun p => p.2))
  if max_score < 0.3 then
    (("general"), max_score, combined_scores)
  else
    let best := pyArgmax combined_scores
    (best.1, best.2, combined_scores)

/-- Combined score map that `detect_domain` builds before branching. -/
def combinedScores (sem : String → String → ℚ)
    (schema : List (String × List String)) : List (String × ℚ) :=
  domain_signatures.map (fun d =>
    (d.1, 0.7 * pyGetD (_semantic_based_detection sem (_schema_to_text schema)) d.1 +
          0.3 * pyGetD (_keyword_based_detection (_schema_to_text schema)) d.1))

/-! ### IntentClassifier.extract_entities -/

/-- Entities extracted from a prompt (`extract_entities`); every field starts
out as Python `None` / `[]` and is filled by the pattern checks. -/
structure Entities where
  metrics : List String
  dimensions : List String
  time_period : Option String
  aggregation : Option String
  limit : Option Nat
deriving DecidableEq

/-- Metric scan list of `extract_entities`. -/
def metric_patterns : List String :=
  ["total", "sum", "count", "average", "max", "min",
   "revenue", "sales", "profit", "cost", "price", "amount",
   "quantity", "number", "rate", "percentage"]

/-- Dimension scan list of `extract_entities`. -/
def dimension_patterns : List String :=
  ["product", "customer", "region", "category", "type",
   "date", "time", "month", "year", "day", "department",
   "location", "city", "country", "state"]

/-- Time-period table of `extract_entities`, in declaration order. -/
def time_map : List (String × List String) :=
  [ ("last_month", ["last month", "previous month"]),
    ("current_month", ["this month", "current month"]),
    ("last_year", ["last year", "previous year"]),
    ("current_year", ["this year", "current year"]),
    ("last_quarter", ["last quarter", "previous quarter"]),
    ("last_week", ["last week", "previous week"]) ]

/-- Python regex word character (`\w` over the ASCII inputs in scope). -/
def isWordChar (c : Char) : Bool :=
  c.isAlpha || c.isDigit || c == '_'

/-- Scanner for Python `re.findall(r'\b(\d+)\b', s)`: every maximal run of
digits whose neighbouring characters (when present) are non-word characters,
in order of occurrence.  `prevW` records whether the previous character was a
word character (`false` at the start of the string); while inside a digit run
the accumulator holds the value so far and whether the run started at a word
boundary. -/
def findIntRuns : Bool → Option (Nat × Bool) → List Char → List Nat
  | _, none, [] => []
  | _, some (v, ok), [] => if ok then [v] else []
  | prevW, none, c :: rest =>
    if c.isDigit then
      findIntRuns true (some ((c.toNat - 48), !prevW)) rest
    else
      findIntRuns (isWordChar c) none rest
  | _, some (v, ok), c :: rest =>
    if c.isDigit then
      findIntRuns true (some (10 * v + (c.toNat - 48), ok)) rest
    else
      (if ok && !isWordChar c then [v] else []) ++ findIntRuns (isWordChar c) none rest

/-- Python `re.findall(r'\b(\d+)\b', s)` as integers. -/
def pyFindIntegers (s : String) : List Nat :=
  findIntRuns false none s.data

/-- Method `extract_entities`: metric/dimension substring scans in scan-list
order, first matching time period, aggregation by a fixed if/elif priority
chain, and the first found integer as limit when a ranking word occurs. -/
def extract_entities (prompt : String) : Entities :=
  let prompt_lower := pyLower prompt
  let metrics := metric_patterns.filter (fun m => strContains prompt_lower m)
  let dimensions := dimension_patterns.filter (fun d => strContains prompt_lower d)
  let time_period :=
    (time_map.find? (fun pk => pk.2.any (fun kw => strContains prompt_lower kw))).map
      (fun pk => pk.1)
  let aggregation : Option String :=
    if (["total", "sum"]).any (fun w => strContains prompt_lower w) then some ("sum")
    else if (["average", "avg", "mean"]).any (fun w => strContains prompt_lower w) then
      some ("average")
    else if strContains prompt_lower ("count") then some ("count")
    else if (["max", "maximum", "highest"]).any (fun w => strContains prompt_lower w) then
      some ("max")
    else if (["min", "minimum", "lowest"]).any (fun w => strContains prompt_lower w) then
      some ("min")
    else none
  let numbers := pyFindIntegers prompt_lower
  let limit : Option Nat :=
    if !numbers.isEmpty &&
        (["top", "bottom", "first", "last"]).any (fun w => strContains prompt_lower w) then
      numbers.head?
    else none
  ⟨metrics, dimensions, time_period, aggregation, limit⟩

/-! ### QueryGenerator serialization (`query_generator.py`) -/

/-- ASCII apostrophe, used by the Python `repr` of string lists. -/
def apos : String := String.mk [Char.ofNat 39]

/-- Domain-specific SQL tips table of `QueryGenerator.__init__`. -/
def domain_sql_tips : List (String × List String) :=
  [ ("healthcare",
     ["Use patient_id for joins with patient tables",
      "Consider HIPAA compliance - don" ++ apos ++ "t expose sensitive fields without permission",
      "Common metrics: patient count, diagnosis frequency, treatment outcomes",
      "Date fields often: admission_date, discharge_date, appointment_date"]),
    ("finance",
     ["Always use DECIMAL for monetary values, not FLOAT",
      "Common aggregations: SUM(amount), AVG(balance), COUNT(transactions)",
      "Consider currency conversions if multi-currency",
      "Date fields often: transaction_date, payment_date, due_date"]),
    ("hospital",
     ["Use bed_id, ward_id for hospital operations",
      "Track admission/discharge dates carefully",
      "Common metrics: bed occupancy, average stay duration, department load",
      "Emergency cases may need priority flagging"]),
    ("retail",
     ["Use product_id, customer_id, order_id for relationships",
      "Inventory tracking: stock levels, reorder points",
      "Common metrics: total sales, items sold, average order value",
      "Consider seasonal trends in date filters"]),
    ("education",
     ["Use student_id, course_id, teacher_id for relationships",
      "GPA calculations may need weighted averages",
      "Common metrics: enrollment count, average grades, attendance rate",
      "Academic calendars: semesters, terms, academic years"]),
    ("hr",
     ["Use employee_id, department_id for relationships",
      "Salary data is sensitive - ensure access control",
      "Common metrics: headcount, average salary, turnover rate",
      "Date fields: hire_date, termination_date, appraisal_date"]),
    ("logistics",
     ["Track shipment_id, delivery_id, warehouse_id",
      "Location data: origin, destination, current_location",
      "Common metrics: delivery time, routes efficiency, capacity utilization",
      "Status tracking: pending, in_transit, delivered"]),
    ("ecommerce",
     ["Use order_id, product_id, customer_id, cart_id",
      "Track order status: pending, confirmed, shipped, delivered, cancelled",
      "Common metrics: conversion rate, cart abandonment, average order value",
      "Consider user sessions and browsing behavior"]) ]

/-- Python `str()` of the value stored under an always-present dict key that
holds an optional string.  In the program, `entities.get('time_period', 'all')`
and `entities.get('aggregation', 'none')` return the *stored* value — possibly
`None`, rendered by the f-string as `"None"` — because `extract_entities`
always sets those keys, so the written defaults are unreachable. -/
def pyStrOfOptStr : Option String → String
  | some v => v
  | none => "None"

/-- Python `str()` of the stored value of the always-present `limit` key
(`entities.get('limit', 'none')`; the default is unreachable, see
`pyStrOfOptStr`). -/
def pyStrOfOptNat : Option Nat → String
  | some n => toString n
  | none => "None"

/-- Python `repr` of a list of strings, as rendered by an f-string. -/
def pyReprStrList (l : List String) : String :=
  ("[") ++ String.intercalate (", ") (l.map (fun s => apos ++ s ++ apos)) ++ ("]")

/-- Method `_format_schema`. -/
def _format_schema (schema : List (String × List String)) : String :=
  schema.foldl (fun acc tc =>
    acc ++ "\nTable: " ++ tc.1 ++ "\n" ++ "Columns: " ++
      String.intercalate (", ") tc.2 ++ "\n") ("")

/-- Method `_format_domain_tips`. -/
def _format_domain_tips (tips : List String) : String :=
  if tips.isEmpty then "- Use standard SQL best practices"
  else String.intercalate ("\n") (tips.map (fun tip => "- " ++ tip))

/-- Method `_build_domain_aware_prompt`: the full f-string, with
`intent_data['intent']` passed as `intent` and `intent_data['entities']` as
`entities` (as the agent wires them). -/
def _build_domain_aware_prompt (user_prompt : String) (intent : String)
    (entities : Entities) (schema : List (String × List String))
    (domain : String) : String :=
  let domain_tips :=
    match domain_sql_tips.find? (fun p => p.1 == domain) with
    | some p => p.2
    | none => []
  "Generate a SQL query for this request:\n\nUSER REQUEST: " ++ user_prompt ++
  "\n\nDETECTED DOMAIN: " ++ pyUpper domain ++
  "\nINTENT: " ++ intent ++
  "\nMETRICS: " ++ pyReprStrList entities.metrics ++
  "\nDIMENSIONS: " ++ pyReprStrList entities.dimensions ++
  "\nTIME PERIOD: " ++ pyStrOfOptStr entities.time_period ++
  "\nAGGREGATION: " ++ pyStrOfOptStr entities.aggregation ++
  "\nLIMIT: " ++ pyStrOfOptNat entities.limit ++
  "\n\nDATABASE SCHEMA:\n" ++ _format_schema schema ++
  "\n\nDOMAIN-SPECIFIC GUIDELINES (" ++ domain ++ "):\n" ++
  _format_domain_tips domain_tips ++
  "\n\nINSTRUCTIONS:\n1. Generate ONLY the SQL query (no explanations)" ++
  "\n2. No markdown formatting or code blocks" ++
  "\n3. Use proper JOINs if multiple tables needed" ++
  "\n4. Add WHERE clause for time filters if specified" ++
  "\n5. Use GROUP BY for aggregations" ++
  "\n6. Add ORDER BY and LIMIT if specified" ++
  "\n7. Follow " ++ domain ++ " domain best practices" ++
  "\n8. Ensure query is compatible with PostgreSQL/MySQL/SQLite" ++
  "\n9. Use appropriate field names based on domain context" ++
  "\n\nSQL QUERY:"

/-! ### AutoVisualizer (`visualizer.py`) -/

/-- Shape of a pandas result frame as `create_chart` inspects it:
`select_dtypes` partitions the column names into numeric / object
(categorical) / datetime64 columns, with `other_cols` for any remaining
dtype, and `nrows` is `len(data)`. -/
structure DF where
  numeric_cols : List String
  categorical_cols : List String
  date_cols : List String
  other_cols : List String
  nrows : Nat
deriving DecidableEq

/-- Pandas `DataFrame.empty`: no rows or no columns at all. -/
def DF.isEmptyDF (df : DF) : Bool :=
  df.nrows == 0 ||
    (df.numeric_cols.isEmpty && df.categorical_cols.isEmpty &&
     df.date_cols.isEmpty && df.other_cols.isEmpty)

/-- Avoid-lists of `domain_chart_preferences` (the only part of that table
`create_chart` branches on; `primary`, `colors` and `metrics_focus` feed only
the opaque renderer). -/
def domain_chart_avoid : List (String × List String) :=
  [ ("healthcare", ["treemap"]), ("finance", ["funnel"]), ("hospital", []),
    ("retail", ["waterfall"]), ("education", ["waterfall"]), ("hr", []),
    ("logistics", ["pie"]), ("ecommerce", []) ]

/-- Python `self.domain_chart_preferences.get(domain, default).get('avoid', [])`. -/
def avoidOf (domain : String) : List String :=
  match domain_chart_avoid.find? (fun p => p.1 == domain) with
  | some p => p.2
  | none => []

/-- Outcome of `create_chart`: a returned `(figure, chart_type)` pair — with
`has_figure = false` standing for a Python `None` figure — or an uncaught
exception (`raised`). -/
inductive PyFigResult where
  | ok (has_figure : Bool) (chart_type : String)
  | raised
deriving DecidableEq

/-- Method `create_chart`: the ordered rule cascade.  Each nested `if` of the
source that falls through when its inner guard fails is flattened into one
conjunction, which preserves the control flow because a rule returns exactly
when its outer and inner guards both hold.  The comparison rule indexes
`numeric_cols[0]` without a guard and therefore raises `IndexError` when no
numeric column exists. -/
def create_chart (df : DF) (question intent domain : String) : PyFigResult :=
  if df.isEmptyDF then .ok false ("none")
  else if domain == "finance" &&
      (["profit", "loss", "breakdown", "p&l"]).any
        (fun w => strContains (pyLower question) w) &&
      (decide (df.nrows ≤ 10) && !df.numeric_cols.isEmpty) then
    .ok true ("waterfall")
  else if (["funnel", "conversion", "pipeline", "stages"]).any
        (fun w => strContains (pyLower question) w) &&
      (!df.categorical_cols.isEmpty && !df.numeric_cols.isEmpty &&
       !(avoidOf domain).contains ("funnel")) then
    .ok true ("funnel")
  else if (["hierarchy", "breakdown", "composition"]).any
        (fun w => strContains (pyLower question) w) &&
      decide (2 ≤ df.categorical_cols.length) &&
      !(avoidOf domain).contains ("treemap") then
    .ok true ("treemap")
  else if (["distribution", "spread", "range"]).any
        (fun w => strContains (pyLower question) w) && !df.numeric_cols.isEmpty then
    if domain == "education" || domain == "healthcare" then .ok true ("box")
    else .ok true ("histogram")
  else if (["correlation", "relationship", "vs", "versus"]).any
        (fun w => strContains (pyLower question) w) &&
      decide (2 ≤ df.numeric_cols.length) then
    .ok true ("scatter")
  else if (["compare", "comparison"]).any (fun w => strContains (pyLower question) w) &&
      decide (2 ≤ df.categorical_cols.length) then
    if df.numeric_cols.isEmpty then .raised else .ok true ("grouped_bar")
  else if !df.date_cols.isEmpty && !df.numeric_cols.isEmpty then
    .ok true ("line")
  else if (["share", "percentage", "proportion"]).any
        (fun w => strContains (pyLower question) w) && decide (df.nrows ≤ 10) &&
      (!df.categorical_cols.isEmpty && !df.numeric_cols.isEmpty &&
       !(avoidOf domain).contains ("pie")) then
    .ok true ("pie")
  else if (intent == "top_bottom" ||
        (["top", "bottom", "best", "worst"]).any
          (fun w => strContains (pyLower question) w)) &&
      (!df.categorical_cols.isEmpty && !df.numeric_cols.isEmpty) then
    .ok true ("bar")
  else if (["pattern", "heatmap", "matrix"]).any
        (fun w => strContains (pyLower question) w) &&
      (decide (2 ≤ df.categorical_cols.length) && !df.numeric_cols.isEmpty) then
    .ok true ("heatmap")
  else if decide (100 < df.nrows) then .ok true ("table")
  else if !df.categorical_cols.isEmpty && !df.numeric_cols.isEmpty then .ok true ("bar")
  else .ok true ("table")

/-- Rule cascade of `create_chart` abstracted over the truth values of its
guards, in source order: waterfall, funnel, treemap, distribution (with the
education/healthcare sub-branch `c4b`), scatter, comparison (with the
empty-numeric-columns sub-branch `c6e` that raises), line, pie, bar, heatmap,
and the default row-count/column checks.  `create_chart` is definitionally
this cascade applied to its concrete guards (see `create_chart_eq_cascade`). -/
def cascadeRules (c1 c2 c3 c4 c4b c5 c6 c6e c7 c8 c9 c10 c11 c12 : Bool) : PyFigResult :=
  if c1 then .ok true ("waterfall")
  else if c2 then .ok true ("funnel")
  else if c3 then .ok true ("treemap")
  else if c4 then (if c4b then .ok true ("box") else .ok true ("histogram"))
  else if c5 then .ok true ("scatter")
  else if c6 then (if c6e then .raised else .ok true ("grouped_bar"))
  else if c7 then .ok true ("line")
  else if c8 then .ok true ("pie")
  else if c9 then .ok true ("bar")
  else if c10 then .ok true ("heatmap")
  else if c11 then .ok true ("table")
  else if c12 then .ok true ("bar")
  else .ok true ("table")

/-- Row of the two-column view `_create_pie_chart` works on: the label column
entry and the value column entry. -/
abbrev Row := String × ℚ

/-- Descending comparison on the value column (ties keep original order under
a stable sort, matching pandas `nlargest(..., keep='first')`). -/
def rowGE (a b : Row) : Prop := b.2 ≤ a.2

/-- Ascending comparison on the value column (pandas `nsmallest`). -/
def rowLE (a b : Row) : Prop := a.2 ≤ b.2

instance : DecidableRel rowGE := fun a b => inferInstanceAs (Decidable (b.2 ≤ a.2))

instance : DecidableRel rowLE := fun a b => inferInstanceAs (Decidable (a.2 ≤ b.2))

instance : IsTotal Row rowGE := ⟨fun a b => le_total b.2 a.2⟩

instance : IsTotal Row rowLE := ⟨fun a b => le_total a.2 b.2⟩

instance : IsTrans Row rowGE := ⟨fun _ _ _ h1 h2 => le_trans h2 h1⟩

instance : IsTrans Row rowLE := ⟨fun _ _ _ h1 h2 => le_trans h1 h2⟩

/-- Pandas `data.nlargest(k, values_col)` with the default `keep='first'`:
the first `k` rows of a stable descending sort by the value column. -/
def nlargestRows (k : Nat) (rows : List Row) : List Row :=
  (List.insertionSort rowGE rows).take k

/-- Pandas `data.nsmallest(k, values_col)` with the default `keep='first'`. -/
def nsmallestRows (k : Nat) (rows : List Row) : List Row :=
  (List.insertionSort rowLE rows).take k

/-- Data transform of `_create_pie_chart`: with more than 8 rows, keep the 8
largest rows by value and append one `Others` row holding the summed values
of `nsmallest(len(data) - 8)`; otherwise the data is unchanged. -/
def _create_pie_chart_data (rows : List Row) : List Row :=
  if 8 < rows.length then
    let top_data := nlargestRows 8 rows
    let others_sum := ((nsmallestRows (rows.length - 8) rows).map (fun p => p.2)).sum
    top_data ++ [(("Others"), others_sum)]
  else rows

/-! ### Helper lemmas about the Python max/argmax model -/

lemma pyPick_snd (x y : String × ℚ) : (pyPick x y).2 = max x.2 y.2 := by
  by_cases h : x.2 < y.2
  · simp [pyPick, h, max_eq_right h.le]
  · simp [pyPick, h, max_eq_left (not_lt.mp h)]

lemma foldl_pyPick_snd (xs : List (String × ℚ)) :
    ∀ x : String × ℚ, (xs.foldl pyPick x).2 = xs.foldl (fun m y => max m y.2) x.2 := by
  induction xs with
  | nil => intro x; rfl
  | cons y ys ih =>
    intro x
    simp only [List.foldl_cons]
    rw [ih, pyPick_snd]

lemma pyArgmax_snd_eq (l : List (String × ℚ)) (h : l ≠ []) :
    (pyArgmax l).2 = pyMaxVal (l.map (fun p => p.2)) := by
  cases l with
  | nil => exact absurd rfl h
  | cons x xs =>
    simp only [pyArgmax, pyMaxVal, List.map_cons, List.foldl_map]
    exact foldl_pyPick_snd xs x

lemma foldl_pyPick_mem (xs : List (String × ℚ)) :
    ∀ x : String × ℚ, xs.foldl pyPick x = x ∨ xs.foldl pyPick x ∈ xs := by
  induction xs with
  | nil => intro x; exact Or.inl rfl
  | cons y ys ih =>
    intro x
    simp only [List.foldl_cons]
    rcases ih (pyPick x y) with h | h
    · rw [h]
      unfold pyPick
      split
      · exact Or.inr (List.mem_cons_self _ _)
      · exact Or.inl rfl
    · exact Or.inr (List.mem_cons_of_mem _ h)

lemma pyArgmax_mem (l : List (String × ℚ)) (h : l ≠ []) : pyArgmax l ∈ l := by
  cases l with
  | nil => exact absurd rfl h
  | cons x xs =>
    rcases foldl_pyPick_mem xs x with h' | h'
    · rw [show pyArgmax (x :: xs) = xs.foldl pyPick x from rfl, h']
      exact List.mem_cons_self _ _
    · exact List.mem_cons_of_mem _ h'

/-! ### Structure lemmas about detect_domain -/

lemma detect_domain_def (sem : String → String → ℚ)
    (schema : List (String × List String)) :
    detect_domain sem schema =
      if pyMaxVal ((combinedScores sem schema).map (fun p => p.2)) < 0.3 then
        (("general"), pyMaxVal ((combinedScores sem schema).map (fun p => p.2)),
          combinedScores sem schema)
      else
        ((pyArgmax (combinedScores sem schema)).1,
          (pyArgmax (combinedScores sem schema)).2, combinedScores sem schema) := rfl

lemma combinedScores_ne_nil (sem : String → String → ℚ)
    (schema : List (String × List String)) : combinedScores sem schema ≠ [] := by
  simp [combinedScores, domain_signatures]

lemma detect_domain_all_scores (sem : String → String → ℚ)
    (schema : List (String × List String)) :
    (detect_domain sem schema).2.2 = combinedScores sem schema := by
  rw [detect_domain_def]
  split <;> rfl

lemma detect_domain_confidence (sem : String → String → ℚ)
    (schema : List (String × List String)) :
    (detect_domain sem schema).2.1 =
      pyMaxVal (((detect_domain sem schema).2.2).map (fun p => p.2)) := by
  rw [detect_domain_def]
  split
  · rfl
  · rw [show ((((pyArgmax (combinedScores sem schema)).1,
        (pyArgmax (combinedScores sem schema)).2, combinedScores sem schema)).2.1 : ℚ) =
        (pyArgmax (combinedScores sem schema)).2 from rfl]
    exact pyArgmax_snd_eq _ (combinedScores_ne_nil sem schema)

/-! ### Claim theorems: domain detection -/

/-- Claim C1: for every semantic-similarity oracle and every schema,
`detect_domain` returns `general` with the (sub-threshold) maximal combined
score as confidence when that maximum is below 0.3, otherwise the first
maximal domain of the combined scores with its score as confidence; it never
returns a non-general domain with confidence below 0.3. -/
theorem detect_domain_threshold_law (sem : String → String → ℚ)
    (schema : List (String × List String)) :
    (pyMaxVal (((detect_domain sem schema).2.2).map (fun p => p.2)) < 0.3 →
      (detect_domain sem schema).1 = ("general") ∧
      (detect_domain sem schema).2.1 =
        pyMaxVal (((detect_domain sem schema).2.2).map (fun p => p.2))) ∧
    ((0.3 : ℚ) ≤ pyMaxVal (((detect_domain sem schema).2.2).map (fun p => p.2)) →
      (detect_domain sem schema).1 = (pyArgmax ((detect_domain sem schema).2.2)).1 ∧
      (detect_domain sem schema).2.1 = (pyArgmax ((detect_domain sem schema).2.2)).2) ∧
    ((detect_domain sem schema).1 ≠ ("general") →
      (0.3 : ℚ) ≤ (detect_domain sem schema).2.1) := by
  have hconf := detect_domain_confidence sem schema
  have hsc := detect_domain_all_scores sem schema
  rw [detect_domain_def]
  by_cases h : pyMaxVal ((combinedScores sem schema).map (fun p => p.2)) < 0.3
  · rw [if_pos h]
    rw [detect_domain_def, if_pos h] at hsc
    refine ⟨fun _ => ⟨rfl, by rw [hsc]⟩, fun h' => absurd h (not_lt.mpr (by rw [hsc] at h'; exact h')), fun h' => absurd rfl h'⟩
  · rw [if_neg h]
    rw [detect_domain_def, if_neg h] at hsc
    have hm : (0.3 : ℚ) ≤ pyMaxVal ((combinedScores sem schema).map (fun p => p.2)) :=
      not_lt.mp h
    refine ⟨fun h' => absurd (by rw [hsc] at h'; exact h') h, fun _ => ⟨by rw [hsc], by rw [hsc]⟩, fun _ => ?_⟩
    rw [show ((((pyArgmax (combinedScores sem schema)).1,
        (pyArgmax (combinedScores sem schema)).2, combinedScores sem schema)).2.1 : ℚ) =
        (pyArgmax (combinedScores sem schema)).2 from rfl,
      pyArgmax_snd_eq _ (combinedScores_ne_nil sem schema)]
    exact hm

lemma sem_const_one :
    _semantic_based_detection (fun _ _ => (1 : ℚ)) (_schema_to_text []) =
      [(("healthcare"), 1), (("finance"), 1), (("hospital"), 1), (("retail"), 1),
       (("education"), 1), (("hr"), 1), (("logistics"), 1), (("ecommerce"), 1)] := rfl

lemma sem_const_zero :
    _semantic_based_detection (fun _ _ => (0 : ℚ)) (_schema_to_text []) =
      [(("healthcare"), 0), (("finance"), 0), (("hospital"), 0), (("retail"), 0),
       (("education"), 0), (("hr"), 0), (("logistics"), 0), (("ecommerce"), 0)] := rfl

lemma kw_empty_schema :
    _keyword_based_detection (_schema_to_text []) =
      [(("healthcare"), 0), (("finance"), 0), (("hospital"), 0), (("retail"), 0),
       (("education"), 0), (("hr"), 0), (("logistics"), 0), (("ecommerce"), 0)] := by
  simp only [_keyword_based_detection, domain_signatures, List.map]
  norm_num
  repeat' apply And.intro
  all_goals rfl

lemma combinedScores_const_one :
    combinedScores (fun _ _ => (1 : ℚ)) [] =
      [(("healthcare"), 0.7), (("finance"), 0.7), (("hospital"), 0.7), (("retail"), 0.7),
       (("education"), 0.7), (("hr"), 0.7), (("logistics"), 0.7), (("ecommerce"), 0.7)] := by
  simp [combinedScores, sem_const_one, kw_empty_schema, domain_signatures, List.map,
    pyGetD, List.find?]
  norm_num
  repeat' apply And.intro
  all_goals rfl

lemma combinedScores_const_zero :
    combinedScores (fun _ _ => (0 : ℚ)) [] =
      [(("healthcare"), 0), (("finance"), 0), (("hospital"), 0), (("retail"), 0),
       (("education"), 0), (("hr"), 0), (("logistics"), 0), (("ecommerce"), 0)] := by
  simp [combinedScores, sem_const_zero, kw_empty_schema, domain_signatures, List.map,
    pyGetD, List.find?]
  norm_num
  repeat' apply And.intro
  all_goals rfl

/-- Witness for C1: with the constant similarity oracle 1 and the empty
schema every combined score is 0.7, so the threshold branch is not taken and
the first maximal domain (healthcare) is returned. -/
theorem detect_domain_threshold_law_witness :
    (0.3 : ℚ) ≤ pyMaxVal (((detect_domain (fun _ _ => (1 : ℚ)) []).2.2).map (fun p => p.2)) ∧
    (detect_domain (fun _ _ => (1 : ℚ)) []).1 = ("healthcare") := by
  have hm : (0.3 : ℚ) ≤
      pyMaxVal (((detect_domain (fun _ _ => (1 : ℚ)) []).2.2).map (fun p => p.2)) := by
    rw [detect_domain_all_scores, combinedScores_const_one]
    simp only [List.map, pyMaxVal, List.foldl, max_self]
    norm_num
  have h := (detect_domain_threshold_law (fun _ _ => (1 : ℚ)) []).2.1 hm
  refine ⟨hm, ?_⟩
  rw [h.1, detect_domain_all_scores, combinedScores_const_one]
  simp only [pyArgmax, pyPick, List.foldl]
  norm_num

/-- Claim C2: for every semantic-similarity oracle, every schema and every
candidate domain among the eight configured ones, the combined score reported
in `all_scores` is 0.7 times the semantic score plus 0.3 times the
keyword-overlap score of that domain. -/
theorem detect_domain_score_fusion (sem : String → String → ℚ)
    (schema : List (String × List String)) (d : String) (hd : d ∈ domainNames) :
    pyGetD ((detect_domain sem schema).2.2) d =
      0.7 * pyGetD (_semantic_based_detection sem (_schema_to_text schema)) d +
      0.3 * pyGetD (_keyword_based_detection (_schema_to_text schema)) d := by
  rw [detect_domain_all_scores]
  simp only [domainNames, domain_signatures, List.map] at hd
  fin_cases hd <;> rfl

/-- Witness for C2 at the domain `finance`, the constant oracle 1 and the
empty schema. -/
theorem detect_domain_score_fusion_witness :
    ("finance") ∈ domainNames ∧
    pyGetD ((detect_domain (fun _ _ => (1 : ℚ)) []).2.2) ("finance") =
      0.7 * pyGetD (_semantic_based_detection (fun _ _ => (1 : ℚ))
        (_schema_to_text [])) ("finance") +
      0.3 * pyGetD (_keyword_based_detection (_schema_to_text [])) ("finance") :=
  ⟨by decide, detect_domain_score_fusion (fun _ _ => (1 : ℚ)) [] ("finance") (by decide)⟩

/-- Claim C10: for every semantic-similarity oracle and every schema, the
`all_scores` map of `detect_domain` has exactly the eight configured domains
as keys, never contains a `general` key, and in the general case the reported
confidence is the maximum over those eight scores. -/
theorem detect_domain_all_scores_no_general (sem : String → String → ℚ)
    (schema : List (String × List String)) :
    ((detect_domain sem schema).2.2).map (fun p => p.1) =
      [("healthcare"), ("finance"), ("hospital"), ("retail"),
       ("education"), ("hr"), ("logistics"), ("ecommerce")] ∧
    ("general") ∉ ((detect_domain sem schema).2.2).map (fun p => p.1) ∧
    ((detect_domain sem schema).1 = ("general") →
      (detect_domain sem schema).2.1 =
        pyMaxVal (((detect_domain sem schema).2.2).map (fun p => p.2))) := by
  have hk : ((detect_domain sem schema).2.2).map (fun p => p.1) =
      [("healthcare"), ("finance"), ("hospital"), ("retail"),
       ("education"), ("hr"), ("logistics"), ("ecommerce")] := by
    rw [detect_domain_all_scores]; rfl
  refine ⟨hk, ?_, fun _ => detect_domain_confidence sem schema⟩
  rw [hk]; decide

/-- Witness for C10: the constant oracle 0 on the empty schema lands in the
`general` branch, where the confidence equals the maximal combined score. -/
theorem detect_domain_all_scores_no_general_witness :
    (detect_domain (fun _ _ => (0 : ℚ)) []).1 = ("general") ∧
    (detect_domain (fun _ _ => (0 : ℚ)) []).2.1 =
      pyMaxVal (((detect_domain (fun _ _ => (0 : ℚ)) []).2.2).map (fun p => p.2)) := by
  have hlt : pyMaxVal ((combinedScores (fun _ _ => (0 : ℚ)) []).map (fun p => p.2)) <
      0.3 := by
    rw [combinedScores_const_zero]
    simp only [List.map, pyMaxVal, List.foldl, max_self]
    norm_num
  have hg : (detect_domain (fun _ _ => (0 : ℚ)) []).1 = ("general") := by
    rw [detect_domain_def, if_pos hlt]
  exact ⟨hg, (detect_domain_all_scores_no_general (fun _ _ => (0 : ℚ)) []).2.2 hg⟩

/-! ### Claim theorems: intent classification -/

/-- Claim C3: for every similarity oracle and every prompt, `classify`
returns one of the seven fixed categories, its `all_scores` map has exactly
seven entries whose keys are those categories, the returned intent is the
first maximal key of `all_scores`, and the returned confidence is that
maximal score; there is no threshold or fallback category. -/
theorem classify_fixed_categories (sim : String → String → ℚ) (prompt : String) :
    ((classify sim prompt).2.2).map (fun p => p.1) = intentNames ∧
    ((classify sim prompt).2.2).length = 7 ∧
    (classify sim prompt).1 = (pyArgmax ((classify sim prompt).2.2)).1 ∧
    (classify sim prompt).1 ∈ intentNames ∧
    (classify sim prompt).2.1 = (pyArgmax ((classify sim prompt).2.2)).2 := by
  refine ⟨rfl, rfl, rfl, ?_, rfl⟩
  have hne : (classify sim prompt).2.2 ≠ [] := by simp [classify, intents]
  have hmem := List.mem_map_of_mem (fun p : String × ℚ => p.1) (pyArgmax_mem _ hne)
  rw [show ((classify sim prompt).2.2).map (fun p => p.1) = intentNames from rfl] at hmem
  exact hmem

/-! ### Claim theorems: entity extraction -/

/-- Claim C4: `extract_entities` assigns at most one aggregation label by a
fixed priority chain — sum-or-total first, then average-family, count,
max-family, min-family — with the first match short-circuiting the rest; in
particular any prompt containing `total` (such as one containing both
`total` and `average`) gets aggregation `sum`. -/
theorem aggregation_priority (prompt : String) :
    ((["total", "sum"]).any (fun w => strContains (pyLower prompt) w) = true →
      (extract_entities prompt).aggregation = some ("sum")) ∧
    ((["total", "sum"]).any (fun w => strContains (pyLower prompt) w) = false →
      (["average", "avg", "mean"]).any (fun w => strContains (pyLower prompt) w) = true →
      (extract_entities prompt).aggregation = some ("average")) ∧
    ((["total", "sum"]).any (fun w => strContains (pyLower prompt) w) = false →
      (["average", "avg", "mean"]).any (fun w => strContains (pyLower prompt) w) = false →
      strContains (pyLower prompt) ("count") = true →
      (extract_entities prompt).aggregation = some ("count")) ∧
    ((["total", "sum"]).any (fun w => strContains (pyLower prompt) w) = false →
      (["average", "avg", "mean"]).any (fun w => strContains (pyLower prompt) w) = false →
      strContains (pyLower prompt) ("count") = false →
      (["max", "maximum", "highest"]).any (fun w => strContains (pyLower prompt) w) = true →
      (extract_entities prompt).aggregation = some ("max")) ∧
    ((["total", "sum"]).any (fun w => strContains (pyLower prompt) w) = false →
      (["average", "avg", "mean"]).any (fun w => strContains (pyLower prompt) w) = false →
      strContains (pyLower prompt) ("count") = false →
      (["max", "maximum", "highest"]).any (fun w => strContains (pyLower prompt) w) = false →
      (["min", "minimum", "lowest"]).any (fun w => strContains (pyLower prompt) w) = true →
      (extract_entities prompt).aggregation = some ("min")) ∧
    ((["total", "sum"]).any (fun w => strContains (pyLower prompt) w) = false →
      (["average", "avg", "mean"]).any (fun w => strContains (pyLower prompt) w) = false →
      strContains (pyLower prompt) ("count") = false →
      (["max", "maximum", "highest"]).any (fun w => strContains (pyLower prompt) w) = false →
      (["min", "minimum", "lowest"]).any (fun w => strContains (pyLower prompt) w) = false →
      (extract_entities prompt).aggregation = none) ∧
    (strContains (pyLower prompt) ("total") = true →
      (extract_entities prompt).aggregation = some ("sum")) := by
  refine ⟨fun h1 => ?_, fun h1 h2 => ?_, fun h1 h2 h3 => ?_, fun h1 h2 h3 h4 => ?_,
    fun h1 h2 h3 h4 h5 => ?_, fun h1 h2 h3 h4 h5 => ?_, fun h1 => ?_⟩ <;>
    simp_all [extract_entities]

/-- Witness for C4: the prompt contains both `total` and `average`, and the
sum-or-total check wins. -/
theorem aggregation_priority_witness :
    strContains (pyLower ("show total and average revenue")) ("total") = true ∧
    (extract_entities ("show total and average revenue")).aggregation = some ("sum") :=
  ⟨by decide, (aggregation_priority ("show total and average revenue")).2.2.2.2.2.2 (by decide)⟩

/-- Claim C5: `extract_entities` sets `limit` to the first integer literal
found by the `\b(\d+)\b` scan exactly when one of the ranking words top,
bottom, first, last occurs in the prompt, and to `none` otherwise. -/
theorem limit_extraction (prompt : String) :
    ((["top", "bottom", "first", "last"]).any
        (fun w => strContains (pyLower prompt) w) = true →
      (extract_entities prompt).limit = (pyFindIntegers (pyLower prompt)).head?) ∧
    ((["top", "bottom", "first", "last"]).any
        (fun w => strContains (pyLower prompt) w) = false →
      (extract_entities prompt).limit = none) := by
  constructor
  · intro h
    cases hn : pyFindIntegers (pyLower prompt) with
    | nil => simp [extract_entities, h, hn]
    | cons a l => simp [extract_entities, h, hn]
  · intro h
    simp [extract_entities, h]

/-- Witness for C5: `top 5 products` yields limit 5, `show 5 products` (no
ranking word) yields no limit. -/
theorem limit_extraction_witness :
    (["top", "bottom", "first", "last"]).any
        (fun w => strContains (pyLower ("top 5 products")) w) = true ∧
    (extract_entities ("top 5 products")).limit = some 5 ∧
    (["top", "bottom", "first", "last"]).any
        (fun w => strContains (pyLower ("show 5 products")) w) = false ∧
    (extract_entities ("show 5 products")).limit = none := by
  have h1 := (limit_extraction ("top 5 products")).1 (by decide)
  have h2 := (limit_extraction ("show 5 products")).2 (by decide)
  refine ⟨by decide, ?_, by decide, h2⟩
  rw [h1]
  decide

/-! ### Claim theorems: chart selection -/

/-- Claim C6: on a non-empty frame satisfying both the waterfall rule's
conditions (finance domain, profit/loss/breakdown/p&l keyword, at most 10
rows, a numeric column) and the top/bottom rule's conditions (top_bottom
intent or ranking keyword, with categorical and numeric columns),
`create_chart` picks the waterfall chart, never the bar chart: the cascade is
evaluated top to bottom and the first matching rule wins. -/
theorem waterfall_precedence (df : DF) (q i : String)
    (hrow : 0 < df.nrows)
    (hw : (["profit", "loss", "breakdown", "p&l"]).any
        (fun w => strContains (pyLower q) w) = true)
    (hr : df.nrows ≤ 10)
    (hn : df.numeric_cols ≠ [])
    (ht : i = ("top_bottom") ∨
      (["top", "bottom", "best", "worst"]).any (fun w => strContains (pyLower q) w) = true)
    (hc : df.categorical_cols ≠ []) :
    create_chart df q i ("finance") = PyFigResult.ok true ("waterfall") := by
  have hz : df.nrows ≠ 0 := Nat.pos_iff_ne_zero.mp hrow
  have hne : df.isEmptyDF = false := by
    simp [DF.isEmptyDF, hz, hn]
  simp [create_chart, hne, hw, hr, hn]

/-- Witness for C6: a four-row finance frame whose prompt matches both the
waterfall rule and the top/bottom rule. -/
theorem waterfall_precedence_witness :
    create_chart ⟨["amount"], ["category"], [], [], 4⟩ ("top profit breakdown")
      ("top_bottom") ("finance") = PyFigResult.ok true ("waterfall") :=
  waterfall_precedence ⟨["amount"], ["category"], [], [], 4⟩ ("top profit breakdown")
    ("top_bottom") (by decide) (by decide) (by decide) (by decide) (Or.inl rfl) (by decide)

lemma create_chart_eq_cascade (df : DF) (q i dom : String) :
    create_chart df q i dom =
      if df.isEmptyDF then PyFigResult.ok false ("none")
      else cascadeRules
        (dom == "finance" &&
          (["profit", "loss", "breakdown", "p&l"]).any
            (fun w => strContains (pyLower q) w) &&
          (decide (df.nrows ≤ 10) && !df.numeric_cols.isEmpty))
        ((["funnel", "conversion", "pipeline", "stages"]).any
            (fun w => strContains (pyLower q) w) &&
          (!df.categorical_cols.isEmpty && !df.numeric_cols.isEmpty &&
           !(avoidOf dom).contains ("funnel")))
        ((["hierarchy", "breakdown", "composition"]).any
            (fun w => strContains (pyLower q) w) &&
          decide (2 ≤ df.categorical_cols.length) &&
          !(avoidOf dom).contains ("treemap"))
        ((["distribution", "spread", "range"]).any
            (fun w => strContains (pyLower q) w) && !df.numeric_cols.isEmpty)
        (dom == "education" || dom == "healthcare")
        ((["correlation", "relationship", "vs", "versus"]).any
            (fun w => strContains (pyLower q) w) &&
          decide (2 ≤ df.numeric_cols.length))
        ((["compare", "comparison"]).any (fun w => strContains (pyLower q) w) &&
          decide (2 ≤ df.categorical_cols.length))
        (df.numeric_cols.isEmpty)
        (!df.date_cols.isEmpty && !df.numeric_cols.isEmpty)
        ((["share", "percentage", "proportion"]).any
            (fun w => strContains (pyLower q) w) &&
          decide (df.nrows ≤ 10) &&
          (!df.categorical_cols.isEmpty && !df.numeric_cols.isEmpty &&
           !(avoidOf dom).contains ("pie")))
        ((i == "top_bottom" ||
            (["top", "bottom", "best", "worst"]).any
              (fun w => strContains (pyLower q) w)) &&
          (!df.categorical_cols.isEmpty && !df.numeric_cols.isEmpty))
        ((["pattern", "heatmap", "matrix"]).any (fun w => strContains (pyLower q) w) &&
          (decide (2 ≤ df.categorical_cols.length) && !df.numeric_cols.isEmpty))
        (decide (100 < df.nrows))
        (!df.categorical_cols.isEmpty && !df.numeric_cols.isEmpty) := rfl

lemma cascadeRules_ne_none :
    ∀ c1 c2 c3 c4 c4b c5 c6 c6e c7 c8 c9 c10 c11 c12 : Bool,
      cascadeRules c1 c2 c3 c4 c4b c5 c6 c6e c7 c8 c9 c10 c11 c12 ≠
        PyFigResult.ok false ("none") := by
  decide

lemma cascadeRules_raised :
    ∀ c1 c2 c3 c4 c4b c5 c6 c6e c7 c8 c9 c10 c11 c12 : Bool,
      cascadeRules c1 c2 c3 c4 c4b c5 c6 c6e c7 c8 c9 c10 c11 c12 = PyFigResult.raised →
        c6 = true ∧ c6e = true := by
  decide

lemma cascadeRules_default : ∀ b e c : Bool,
    cascadeRules false false false false b false false e false false false false c false =
      PyFigResult.ok true ("table") := by
  decide

/-- Counterexample for C8 as stated: the comparison branch of `create_chart`
raises (models `numeric_cols[0]` on an empty list) for a non-empty frame with
two categorical and no numeric columns, and a non-empty frame that no rule
matches and that has no categorical or numeric columns yields a table figure
with tag `table`, not `(none, "none")`. -/
theorem create_chart_counterexample :
    create_chart ⟨[], ["a", "b"], [], [], 3⟩ ("compare a and b") ("query_data") ("general") =
      PyFigResult.raised ∧
    create_chart ⟨[], [], ["d"], [], 3⟩ ("show data") ("query_data") ("general") =
      PyFigResult.ok true ("table") ∧
    create_chart ⟨[], [], ["d"], [], 3⟩ ("show data") ("query_data") ("general") ≠
      PyFigResult.ok false ("none") := by
  decide

/-- Claim C8 (amended): `(none, "none")` is returned exactly for an empty
frame; a non-empty frame with no categorical and no numeric columns always
gets a table figure with tag `table` (rather than `(none, "none")`); and the
only branch of `create_chart` that can raise is the comparison branch, which
requires a compare/comparison keyword, at least two categorical columns and
no numeric column. -/
theorem create_chart_error_behavior (df : DF) (q i dom : String) :
    (df.isEmptyDF = false → df.categorical_cols = [] → df.numeric_cols = [] →
      create_chart df q i dom = PyFigResult.ok true ("table")) ∧
    (create_chart df q i dom = PyFigResult.ok false ("none") ↔ df.isEmptyDF = true) ∧
    (create_chart df q i dom = PyFigResult.raised →
      ((["compare", "comparison"]).any (fun w => strContains (pyLower q) w) = true ∧
        2 ≤ df.categorical_cols.length ∧ df.numeric_cols = [])) := by
  refine ⟨?_, ?_, ?_⟩
  · intro hne hcat hnum
    rw [create_chart_eq_cascade, if_neg (by simp [hne])]
    simp only [hcat, hnum, List.isEmpty_nil, List.length_nil, Bool.not_true,
      Bool.and_false, Bool.false_and, Bool.and_true]
    norm_num
    exact cascadeRules_default _ _ _
  · by_cases hne : df.isEmptyDF = true
    · rw [create_chart_eq_cascade, if_pos hne]
      simp [hne]
    · rw [create_chart_eq_cascade, if_neg hne]
      constructor
      · intro h
        exact absurd h (cascadeRules_ne_none _ _ _ _ _ _ _ _ _ _ _ _ _ _)
      · intro h
        exact absurd h hne
  · intro h
    rw [create_chart_eq_cascade] at h
    by_cases hne : df.isEmptyDF = true
    · rw [if_pos hne] at h
      exact absurd h (by simp)
    · rw [if_neg hne] at h
      obtain ⟨h6, h6e⟩ := cascadeRules_raised _ _ _ _ _ _ _ _ _ _ _ _ _ _ h
      rw [Bool.and_eq_true] at h6
      refine ⟨h6.1, of_decide_eq_true h6.2, ?_⟩
      cases hl : df.numeric_cols with
      | nil => rfl
      | cons a l =>
        rw [hl] at h6e
        exact absurd h6e (by simp)

/-- Witness for C8 (amended): a non-empty frame with only a non-numeric,
non-categorical column; no rule matches and a table figure is produced. -/
theorem create_chart_error_behavior_witness :
    (⟨[], [], [], ["flag"], 5⟩ : DF).isEmptyDF = false ∧
    create_chart ⟨[], [], [], ["flag"], 5⟩ ("show data") ("query_data") ("general") =
      PyFigResult.ok true ("table") :=
  ⟨by decide,
    (create_chart_error_behavior ⟨[], [], [], ["flag"], 5⟩ ("show data") ("query_data")
      ("general")).1 (by decide) rfl rfl⟩

lemma nsmallest_sum_eq (rows : List Row) :
    ((nsmallestRows (rows.length - 8) rows).map (fun p => p.2)).sum =
    (((List.insertionSort rowGE rows).drop 8).map (fun p => p.2)).sum := by
  set D := (List.insertionSort rowGE rows).map (fun p => p.2) with hD
  set A := (List.insertionSort rowLE rows).map (fun p => p.2) with hA
  have hDlen : D.length = rows.length := by
    rw [hD, List.length_map, (List.perm_insertionSort rowGE rows).length_eq]
  have hsortA : List.Sorted (· ≤ ·) A :=
    List.Pairwise.map _ (fun a b hab => hab) (List.sorted_insertionSort rowLE rows)
  have hsortD : List.Pairwise (fun a b : ℚ => b ≤ a) D :=
    List.Pairwise.map _ (fun a b hab => hab) (List.sorted_insertionSort rowGE rows)
  have hsortDr : List.Sorted (· ≤ ·) D.reverse := List.pairwise_reverse.mpr hsortD
  have hperm : List.Perm A D.reverse :=
    (((List.perm_insertionSort rowLE rows).map _).trans
      (((List.perm_insertionSort rowGE rows).map _).symm)).trans (List.reverse_perm D).symm
  have hAD : A = D.reverse := List.eq_of_perm_of_sorted hperm hsortA hsortDr
  have hsplit : D.reverse = (D.drop 8).reverse ++ (D.take 8).reverse := by
    rw [← List.reverse_append, List.take_append_drop]
  have hlen8 : ((D.drop 8).reverse).length = rows.length - 8 := by
    rw [List.length_reverse, List.length_drop, hDlen]
  have h1 : ((nsmallestRows (rows.length - 8) rows).map (fun p => p.2)).sum =
      (A.take (rows.length - 8)).sum := by
    rw [hA, nsmallestRows, List.map_take]
  have h2 : A.take (rows.length - 8) = (D.drop 8).reverse := by
    rw [hAD, hsplit]
    exact List.take_left' hlen8
  rw [h1, h2, List.sum_reverse, hD, ← List.map_drop]

/-- Claim C7: when the pie rule fires on more than 8 rows, the pie data is
exactly the 8 rows largest by value (pandas `nlargest(8)`, ties keeping first
occurrences) followed by one `Others` row whose value is the sum of the
values of all excluded rows — the rows dropped after the stable descending
sort — even though the source computes it via `nsmallest(len - 8)`. -/
theorem pie_chart_top8_others (rows : List Row) (h : 8 < rows.length) :
    (_create_pie_chart_data rows).length = 9 ∧
    _create_pie_chart_data rows =
      nlargestRows 8 rows ++
        [(("Others"),
          (((List.insertionSort rowGE rows).drop 8).map (fun p => p.2)).sum)] := by
  have heq : _create_pie_chart_data rows =
      nlargestRows 8 rows ++
        [(("Others"),
          ((nsmallestRows (rows.length - 8) rows).map (fun p => p.2)).sum)] := by
    unfold _create_pie_chart_data
    rw [if_pos h]
  have hlen : (nlargestRows 8 rows).length = 8 := by
    rw [nlargestRows, List.length_take, (List.perm_insertionSort rowGE rows).length_eq]
    exact min_eq_left (le_of_lt h)
  constructor
  · rw [heq, List.length_append, hlen]
    rfl
  · rw [heq, nsmallest_sum_eq rows]

/-- Witness for C7: a 12-row table yields 9 output rows, the 8 largest rows
in descending order followed by an `Others` row holding 4+3+2+1 = 10, the sum
of the 4 smallest excluded values. -/
theorem pie_chart_top8_others_witness :
    8 < ([(("a"), (12 : ℚ)), (("b"), 11), (("c"), 10), (("d"), 9), (("e"), 8), (("f"), 7),
      (("g"), 6), (("h"), 5), (("i"), 4), (("j"), 3), (("k"), 2), (("l"), 1)] :
        List Row).length ∧
    (_create_pie_chart_data [(("a"), (12 : ℚ)), (("b"), 11), (("c"), 10), (("d"), 9),
      (("e"), 8), (("f"), 7), (("g"), 6), (("h"), 5), (("i"), 4), (("j"), 3), (("k"), 2),
      (("l"), 1)]).length = 9 ∧
    _create_pie_chart_data [(("a"), (12 : ℚ)), (("b"), 11), (("c"), 10), (("d"), 9),
      (("e"), 8), (("f"), 7), (("g"), 6), (("h"), 5), (("i"), 4), (("j"), 3), (("k"), 2),
      (("l"), 1)] =
      [(("a"), (12 : ℚ)), (("b"), 11), (("c"), 10), (("d"), 9), (("e"), 8), (("f"), 7),
       (("g"), 6), (("h"), 5), (("Others"), 10)] := by
  refine ⟨by decide, (pie_chart_top8_others _ (by decide)).1, ?_⟩
  rw [(pie_chart_top8_others _ (by decide)).2]
  norm_num [nlargestRows, List.insertionSort, List.orderedInsert, rowGE]

/-! ### Claim theorems: prompt serialization -/

/-- Claim C9 (divergence witness): for a prompt from which no time period,
aggregation or limit is extracted, `extract_entities` stores `None` under the
always-present keys, so the generated text-generation prompt renders
`TIME PERIOD: None`, `AGGREGATION: None` and `LIMIT: None` — the defaults
`'all'`/`'none'` written in `entities.get(...)` are unreachable — while the
domain is rendered uppercased and the intent by name as specified. -/
theorem serialization_defaults_render_none :
    (extract_entities ("show products by region")).time_period = none ∧
    (extract_entities ("show products by region")).aggregation = none ∧
    (extract_entities ("show products by region")).limit = none ∧
    strContains (_build_domain_aware_prompt ("show products by region") ("query_data")
      (extract_entities ("show products by region")) [(("products"), ["id", "name"])]
      ("general")) ("TIME PERIOD: None") = true ∧
    strContains (_build_domain_aware_prompt ("show products by region") ("query_data")
      (extract_entities ("show products by region")) [(("products"), ["id", "name"])]
      ("general")) ("TIME PERIOD: all") = false ∧
    strContains (_build_domain_aware_prompt ("show products by region") ("query_data")
      (extract_entities ("show products by region")) [(("products"), ["id", "name"])]
      ("general")) ("AGGREGATION: None") = true ∧
    strContains (_build_domain_aware_prompt ("show products by region") ("query_data")
      (extract_entities ("show products by region")) [(("products"), ["id", "name"])]
      ("general")) ("AGGREGATION: none") = false ∧
    strContains (_build_domain_aware_prompt ("show products by region") ("query_data")
      (extract_entities ("show products by region")) [(("products"), ["id", "name"])]
      ("general")) ("LIMIT: None") = true ∧
    strContains (_build_domain_aware_prompt ("show products by region") ("query_data")
      (extract_entities ("show products by region")) [(("products"), ["id", "name"])]
      ("general")) ("LIMIT: none") = false ∧
    strContains (_build_domain_aware_prompt ("show products by region") ("query_data")
      (extract_entities ("show products by region")) [(("products"), ["id", "name"])]
      ("general")) ("DETECTED DOMAIN: GENERAL") = true ∧
    strContains (_build_domain_aware_prompt ("show products by region") ("query_data")
      (extract_entities ("show products by region")) [(("products"), ["id", "name"])]
      ("general")) ("INTENT: query_data") = true := by
  set_option maxRecDepth 8192 in decide

end Datachatbot
